import Mathlib

/-!
Shallow embedding of the GeminiRAGAPI session controller.

The repository is a React application whose core is a single controller
component (the `App` component) driving a status state machine
(`Initializing / Welcome / Uploading / Chatting / Error`) over a set of
`useState` fields, together with a thin remote-service adapter
(`geminiService.ts`).  We embed the controller state as an explicit record
`AppState` (one field per `useState` hook) and every event handler as a pure
function from the pre-state to the post-state.  Each remote call made by a
handler is an ambient asynchronous effect; we pass its result in as an
explicit oracle argument (`Except` for calls that can throw, a function
`Nat → Option String` for the per-file upload loop, where `some msg` means
the upload of the file at that index throws an error with message `msg`).
Progress updates (`setUploadProgress` calls) and remote calls issued by the
create-store handler are additionally recorded in trace fields so that
temporal claims about them can be stated.
-/

namespace GeminiRag

/-- Status enumeration, from the application's `AppStatus` enum. -/
inductive AppStatus where
  | Initializing
  | Welcome
  | Uploading
  | Chatting
  | Error
deriving DecidableEq, Repr

/-- A store entry, from the `RagStore` interface: remote name (opaque id) and
user-facing display name. -/
structure RagStore where
  name : String
  displayName : String
deriving DecidableEq, Repr

/-- A key/value metadata pair, from the `CustomMetadata` interface. -/
structure CustomMetadata where
  key : String
  value : String
deriving DecidableEq, Repr

/-- A document inside a store, from the `Document` interface. -/
structure Document where
  name : String
  displayName : String
  customMetadata : List CustomMetadata
deriving DecidableEq, Repr

/-- Chat roles, from the `ChatMessage` interface (`role: 'user' | 'model'`). -/
inductive Role where
  | user
  | model
deriving DecidableEq, Repr

/-- A chat message: role, text parts, optional grounding citations (modelled
as opaque strings — their structure is irrelevant to the controller). -/
structure ChatMessage where
  role : Role
  parts : List String
  groundingChunks : List String := []
deriving DecidableEq, Repr

/-- The upload progress record held in the `uploadProgress` state hook:
`{ current, total, message?, fileName? }`. -/
structure UploadProgress where
  current : Nat
  total : Nat
  message : String
  fileName : Option String := none
deriving DecidableEq, Repr

/-- A staged local file.  Only the name is observable to the controller. -/
structure FileItem where
  name : String
deriving DecidableEq, Repr

/-- The controller state: one field per `useState` hook of the `App`
component, with the same names. -/
structure AppState where
  status : AppStatus
  isApiKeySelected : Bool
  apiKeyError : Option String
  error : Option String
  uploadProgress : Option UploadProgress
  activeRagStoreName : Option String
  documentName : String
  chatHistory : List ChatMessage
  isQueryLoading : Bool
  exampleQuestions : List String
  files : List FileItem
  existingStores : List RagStore
  isLoadingStores : Bool
  libraryError : Option String
deriving DecidableEq, Repr

/-- The initial state: the `useState` initial values of the `App` component. -/
def initialState : AppState :=
  { status := AppStatus.Initializing
    isApiKeySelected := false
    apiKeyError := none
    error := none
    uploadProgress := none
    activeRagStoreName := none
    documentName := ""
    chatHistory := []
    isQueryLoading := false
    exampleQuestions := []
    files := []
    existingStores := []
    isLoadingStores := false
    libraryError := none }

/-- `handleError(message, err)`: records a formatted error string and moves
the machine to the `Error` status.  `err` is `none` when the JS value was
falsy (no `: <detail>` suffix is appended then). -/
def handleError (message : String) (err : Option String) (s : AppState) : AppState :=
  let suffix := match err with
    | some m => ": " ++ m
    | none => ""
  { s with error := some (message ++ suffix), status := AppStatus.Error }

/-- `clearError()`: the single recovery action out of `Error`, back to
`Welcome`.  Note that it clears only the `error` field. -/
def clearError (s : AppState) : AppState :=
  { s with error := none, status := AppStatus.Welcome }

/-- `loadExistingStores()`: the library refresh.  `result` is the outcome of
the remote `listRagStores()` call.  On success the cache is replaced
wholesale; on failure the previous contents are kept and a library error
message is recorded.  The `finally` block clears the loading flag and, when
the machine is still `Initializing`, moves it to `Welcome`. -/
def loadExistingStores (result : Except String (List RagStore)) (s : AppState) : AppState :=
  let s1 := { s with isLoadingStores := true, libraryError := none }
  let s2 := match result with
    | Except.ok stores => { s1 with existingStores := stores }
    | Except.error _ =>
        let msg := "Failed to load your library. Please check your network or API key."
        { s1 with libraryError := some msg }
  let s3 := { s2 with isLoadingStores := false }
  if s3.status = AppStatus.Initializing then { s3 with status := AppStatus.Welcome } else s3

/-- The user message appended by `handleSendMessage`. -/
def userMessage (text : String) : ChatMessage :=
  { role := Role.user, parts := [text] }

/-- The result of the grounded query (`geminiService.fileSearch`). -/
structure QueryResult where
  text : String
  groundingChunks : List String
deriving DecidableEq, Repr

/-- The model message appended by `handleSendMessage` on success. -/
def modelMessage (r : QueryResult) : ChatMessage :=
  { role := Role.model, parts := [r.text], groundingChunks := r.groundingChunks }

/-- The synthetic apology message appended by `handleSendMessage` on failure. -/
def apologyMessage : ChatMessage :=
  { role := Role.model, parts := ["Sorry, I encountered an error. Please try again."] }

/-- `handleSendMessage(message)`: no-op without an active store; otherwise
appends the user message, sets the in-flight flag, runs the grounded query
(outcome passed as `queryResult`), appends either the model answer or the
apology (the latter followed by `handleError`), and finally clears the
in-flight flag. -/
def handleSendMessage (message : String) (queryResult : Except String QueryResult)
    (s : AppState) : AppState :=
  match s.activeRagStoreName with
  | none => s
  | some _ =>
    let s1 := { s with
        chatHistory := s.chatHistory ++ [userMessage message]
        isQueryLoading := true }
    let s2 := match queryResult with
      | Except.ok r => { s1 with chatHistory := s1.chatHistory ++ [modelMessage r] }
      | Except.error e =>
          handleError "Failed to get response" (some e)
            { s1 with chatHistory := s1.chatHistory ++ [apologyMessage] }
    { s2 with isQueryLoading := false }

/-- `handleSelectExistingStore(store)`: shows the loading screen, records the
selection (active store name and document name), fetches example questions
(outcome passed as `questionsResult`), and on success resets the chat history
and enters `Chatting`; on failure routes to `handleError`.  The `finally`
block clears the progress record. -/
def handleSelectExistingStore (store : RagStore)
    (questionsResult : Except String (List String)) (s : AppState) : AppState :=
  let s1 := { s with
      apiKeyError := none
      status := AppStatus.Uploading
      uploadProgress := some
        { current := 1, total := 1, message := "Loading existing session...", fileName := none } }
  let s2 := { s1 with activeRagStoreName := some store.name, documentName := store.displayName }
  let s3 := match questionsResult with
    | Except.ok qs =>
        { s2 with exampleQuestions := qs, chatHistory := [], status := AppStatus.Chatting }
    | Except.error e => handleError "Failed to load existing session" (some e) s2
  { s3 with uploadProgress := none }

/-- `handleDeleteStore(storeName)`: awaits the remote delete first; only on
success filters the entry out of the cache and issues a refresh
(`loadExistingStores`, whose remote outcome is `refreshResult`).  On failure
the catch block merely logs and raises an alert; the returned `Bool` records
whether that alert was raised. -/
def handleDeleteStore (storeName : String) (deleteResult : Except String Unit)
    (refreshResult : Except String (List RagStore)) (s : AppState) : AppState × Bool :=
  match deleteResult with
  | Except.error _ => (s, true)
  | Except.ok _ =>
      let s1 := { s with
          existingStores := s.existingStores.filter (fun st => st.name != storeName) }
      (loadExistingStores refreshResult s1, false)

/-- `handleEndChat()`: tears the chat session down (active store, history,
questions, document name, staged files), returns to `Welcome` and triggers a
library refresh. -/
def handleEndChat (refreshResult : Except String (List RagStore)) (s : AppState) : AppState :=
  loadExistingStores refreshResult
    { s with
        activeRagStoreName := none
        chatHistory := []
        exampleQuestions := []
        documentName := ""
        files := []
        status := AppStatus.Welcome }

/-- Remote calls issued by the create-store handler, recorded for tracing.
`listStores` would appear if the handler triggered a library refresh; the
source deliberately does not (it relies on the optimistic insert). -/
inductive RemoteCall where
  | createStore (displayName : String)
  | uploadFile (storeName : String) (fileName : String)
  | listStores
deriving DecidableEq, Repr

/-- Oracle for the remote effects of one create-store run: the result of
`createRagStore` and, for each file index, whether `uploadToRagStore` throws
(`some msg`) or succeeds (`none`). -/
structure UploadOracle where
  createResult : Except String String
  uploadResult : Nat → Option String

/-- Outcome of one create-store run: the post-state, the successive non-null
values passed to `setUploadProgress` (the `finally` block's clearing to null
is reflected in `state.uploadProgress` instead), the remote calls issued in
order, and whether the handler threw. -/
structure UploadOutcome where
  state : AppState
  progressTrace : List UploadProgress
  calls : List RemoteCall
  threw : Bool

/-- The session display name derivation: one file uses its filename, several
files use `"<first> + <N-1> others"`, and an empty staging set would fall
back to a timestamp label (ambient, passed in as `fallback`). -/
def friendlyName (fallback : String) : List FileItem → String
  | [] => fallback
  | [f] => f.name
  | f :: rest => f.name ++ " + " ++ toString rest.length ++ " others"

/-- The first progress record: `{ current: 0, total, message: "Creating document index..." }`. -/
def creatingProgress (total : Nat) : UploadProgress :=
  { current := 0, total := total, message := "Creating document index...", fileName := none }

/-- The record set right after store creation:
`{ current: 1, total, message: "Generating embeddings..." }`. -/
def embeddingsProgress (total : Nat) : UploadProgress :=
  { current := 1, total := total, message := "Generating embeddings...", fileName := none }

/-- The final record of a successful run:
`{ current: files.length + 1, total, message: "Registered! updating library...", fileName: "" }`. -/
def registeredProgress (n : Nat) : UploadProgress :=
  { current := n + 1, total := n + 2, message := "Registered! updating library...", fileName := some "" }

/-- The progress record set at the top of loop iteration `i` (0-based): it
spreads the previous record, so `total` is unchanged, and sets
`current := i + 1` and `fileName := "(i+1/n) <name>"`. -/
def progressFor (total n i : Nat) (f : FileItem) : UploadProgress :=
  { current := i + 1
    total := total
    message := "Generating embeddings..."
    fileName := some ("(" ++ toString (i + 1) ++ "/" ++ toString n ++ ") " ++ f.name) }

/-- Result of the sequential upload loop: progress records emitted, upload
calls issued, and the error of the first failing upload, if any. -/
structure LoopOut where
  trace : List UploadProgress
  calls : List RemoteCall
  err : Option String
deriving Repr

/-- The `for (let i = 0; i < files.length; i++)` upload loop: per file, emit
the progress record, then attempt the upload; a throw aborts the loop. -/
def uploadLoop (o : UploadOracle) (nm : String) (total n : Nat) :
    List FileItem → Nat → LoopOut
  | [], _ => { trace := [], calls := [], err := none }
  | f :: rest, i =>
    let p := progressFor total n i f
    let c := RemoteCall.uploadFile nm f.name
    match o.uploadResult i with
    | some e => { trace := [p], calls := [c], err := some e }
    | none =>
      let r := uploadLoop o nm total n rest (i + 1)
      { trace := p :: r.trace, calls := c :: r.calls, err := r.err }

/-- Substring test, standing in for the JavaScript `String.includes`. -/
def includesSub (hay needle : String) : Bool :=
  (hay.splitOn needle).length > 1

/-- The catch block's error classification: an error whose lowercased message
mentions an invalid key or a missing entity is credential-shaped. -/
def isCredentialShapedError (msg : String) : Bool :=
  let m := msg.toLower
  includesSub m "api key not valid" || includesSub m "requested entity was not found"

/-- The catch block of `handleUploadAndStartChat`: credential-shaped errors
clear the key-selected flag and return to `Welcome` with an inline key error;
all others route to `handleError` (the `Error` status). -/
def uploadCatch (e : String) (s : AppState) : AppState :=
  if isCredentialShapedError e then
    { s with
        apiKeyError :=
          some "The selected API key is invalid. Please select a different one and try again."
        isApiKeySelected := false
        status := AppStatus.Welcome }
  else handleError "Failed to upload files" (some e) s

/-- `handleUploadAndStartChat()`: the create-store transition.  Guards: a
missing key sets a field-level key error and throws; an empty staging set
returns silently.  Otherwise: status `Uploading`, progress `0/(N+2)`, derive
the display name, create the store remotely, progress `1/(N+2)`, upload each
staged file sequentially, set the final "Registered!" progress record,
optimistically prepend the new store to the cache, clear the staging set and
return to `Welcome` — deliberately without a library refresh.  Any throw from
the remote steps runs `uploadCatch` and rethrows.  The `finally` block clears
the progress record on every path that entered the `try`. -/
def handleUploadAndStartChat (oracle : UploadOracle) (fallbackName : String)
    (s : AppState) : UploadOutcome :=
  if !s.isApiKeySelected then
    { state := { s with apiKeyError := some "Please select your Gemini API Key first." }
      progressTrace := []
      calls := []
      threw := true }
  else if s.files.length = 0 then
    { state := s, progressTrace := [], calls := [], threw := false }
  else
    let s1 := { s with apiKeyError := none, status := AppStatus.Uploading }
    let total := s.files.length + 2
    let p0 := creatingProgress total
    let s2 := { s1 with uploadProgress := some p0 }
    let fname := friendlyName fallbackName s.files
    match oracle.createResult with
    | Except.error e =>
        { state := { uploadCatch e s2 with uploadProgress := none }
          progressTrace := [p0]
          calls := [RemoteCall.createStore fname]
          threw := true }
    | Except.ok ragStoreName =>
        let p1 := embeddingsProgress total
        let s3 := { s2 with uploadProgress := some p1 }
        let lr := uploadLoop oracle ragStoreName total s.files.length s.files 0
        match lr.err with
        | some e =>
            { state := { uploadCatch e s3 with uploadProgress := none }
              progressTrace := p0 :: p1 :: lr.trace
              calls := RemoteCall.createStore fname :: lr.calls
              threw := true }
        | none =>
            let pFin := registeredProgress s.files.length
            let newStore : RagStore := { name := ragStoreName, displayName := fname }
            let s4 := { s3 with
                uploadProgress := some pFin
                existingStores := newStore :: s3.existingStores
                files := []
                status := AppStatus.Welcome }
            { state := { s4 with uploadProgress := none }
              progressTrace := (p0 :: p1 :: lr.trace) ++ [pFin]
              calls := RemoteCall.createStore fname :: lr.calls
              threw := false }

/-- One step of removing immediately repeated values: used to express the
distinct progress values attained during a run. -/
def dedupConsec : List Nat → List Nat
  | [] => []
  | [a] => [a]
  | a :: b :: rest =>
      if a = b then dedupConsec (b :: rest) else a :: dedupConsec (b :: rest)

/-- A raw file entry as found in the untyped remote `listFiles` response:
the two display-name spellings may each be absent (`none`) or present,
possibly as the empty string. -/
structure RawFile where
  name : String
  displayName : Option String
  display_name : Option String
  customMetadata : List CustomMetadata
deriving DecidableEq, Repr

/-- JavaScript `a || b` on an optional string: absent and empty-string values
are falsy and fall through to the default. -/
def jsOrString (v : Option String) (d : String) : String :=
  match v with
  | some t => if t = "" then d else t
  | none => d

/-- The per-file mapping of `geminiService.listDocuments`: pass the name
through, resolve the display name via the falsy-chain with the
`"Untitled Document"` fallback, and set `customMetadata` to the empty list. -/
def toDocument (f : RawFile) : Document :=
  { name := f.name
    displayName := jsOrString f.displayName (jsOrString f.display_name "Untitled Document")
    customMetadata := [] }

/-- `geminiService.listDocuments`, applied to the file array already
extracted from the response envelope. -/
def listDocuments (files : List RawFile) : List Document :=
  files.map toDocument

/-! Concrete states and oracles used to instantiate theorems on the spec's
end-to-end scenarios. -/

/-- A `Welcome` state with a key selected and one staged file, the spec's
end-to-end scenario. -/
def welcomeOneFile : AppState :=
  { initialState with
      status := AppStatus.Welcome
      isApiKeySelected := true
      files := [{ name := "manual.pdf" }] }

/-- A `Welcome` state with a key selected and two staged files. -/
def welcomeTwoFiles : AppState :=
  { initialState with
      status := AppStatus.Welcome
      isApiKeySelected := true
      files := [{ name := "a.pdf" }, { name := "b.pdf" }] }

/-- A `Welcome` state with an empty staging set and a key selected. -/
def emptyStagingState : AppState :=
  { initialState with status := AppStatus.Welcome, isApiKeySelected := true }

/-- A `Welcome` state without a selected key but with staged files. -/
def noKeyState : AppState :=
  { initialState with status := AppStatus.Welcome, files := [{ name := "manual.pdf" }] }

/-- A `Welcome` state whose library cache holds one store. -/
def welcomeWithStore : AppState :=
  { initialState with
      status := AppStatus.Welcome
      isApiKeySelected := true
      existingStores := [{ name := "fileSearchStores/1", displayName := "A" }] }

/-- A `Chatting` state with an active store and an empty transcript. -/
def chattingState : AppState :=
  { initialState with
      status := AppStatus.Chatting
      isApiKeySelected := true
      activeRagStoreName := some "fileSearchStores/7"
      documentName := "Manual" }

/-- An oracle on which every remote step of a create-store run succeeds,
returning the spec scenario's store id. -/
def okOracle : UploadOracle :=
  { createResult := Except.ok "store/42", uploadResult := fun _ => none }

/-- An oracle on which store creation succeeds but the upload of the second
file (index 1) throws a non-credential error. -/
def failSecondOracle : UploadOracle :=
  { createResult := Except.ok "store/42"
    uploadResult := fun i => if i = 1 then some "network error" else none }

/-- A remote file entry lacking both display-name spellings. -/
def rawFileUntitled : RawFile :=
  { name := "files/1", displayName := none, display_name := none
    customMetadata := [{ key := "author", value := "me" }] }

/-! Helper lemmas about the upload loop and about `dedupConsec`. -/

theorem uploadLoop_err_none (o : UploadOracle) (nm : String) (t n : Nat)
    (fs : List FileItem) (i : Nat)
    (h : ∀ j, j < fs.length → o.uploadResult (i + j) = none) :
    (uploadLoop o nm t n fs i).err = none := by
  induction fs generalizing i with
  | nil => rfl
  | cons f rest ih =>
      have h0 : o.uploadResult i = none := by simpa using h 0 (Nat.succ_pos _)
      simp only [uploadLoop, h0]
      exact ih (i + 1) fun j hj => by
        have := h (j + 1) (Nat.succ_lt_succ hj)
        simpa [Nat.add_assoc, Nat.add_comm 1 j] using this

theorem uploadLoop_err_first_fail (o : UploadOracle) (nm : String) (t n : Nat)
    (fs : List FileItem) (i k : Nat) (e : String)
    (hk : k < fs.length)
    (hbefore : ∀ j, j < k → o.uploadResult (i + j) = none)
    (hfail : o.uploadResult (i + k) = some e) :
    (uploadLoop o nm t n fs i).err = some e := by
  induction fs generalizing i k with
  | nil => exact absurd hk (Nat.not_lt_zero _)
  | cons f rest ih =>
      cases k with
      | zero =>
          have h0 : o.uploadResult i = some e := by simpa using hfail
          simp [uploadLoop, h0]
      | succ k' =>
          have h0 : o.uploadResult i = none := by simpa using hbefore 0 (Nat.succ_pos _)
          simp only [uploadLoop, h0]
          refine ih (i + 1) k' (Nat.lt_of_succ_lt_succ hk) ?_ ?_
          · intro j hj
            have := hbefore (j + 1) (Nat.succ_lt_succ hj)
            simpa [Nat.add_assoc, Nat.add_comm 1 j] using this
          · simpa [Nat.add_assoc, Nat.add_comm 1 k'] using hfail

theorem uploadLoop_trace_currents (o : UploadOracle) (nm : String) (t n : Nat)
    (fs : List FileItem) (i : Nat)
    (h : ∀ j, j < fs.length → o.uploadResult (i + j) = none) :
    (uploadLoop o nm t n fs i).trace.map (fun p => p.current) =
      List.range' (i + 1) fs.length := by
  induction fs generalizing i with
  | nil => rfl
  | cons f rest ih =>
      have h0 : o.uploadResult i = none := by simpa using h 0 (Nat.succ_pos _)
      have ih' := ih (i + 1) fun j hj => by
        have := h (j + 1) (Nat.succ_lt_succ hj)
        simpa [Nat.add_assoc, Nat.add_comm 1 j] using this
      simp [uploadLoop, h0, progressFor, ih', List.range'_succ]

theorem uploadLoop_no_listStores (o : UploadOracle) (nm : String) (t n : Nat)
    (fs : List FileItem) (i : Nat) :
    RemoteCall.listStores ∉ (uploadLoop o nm t n fs i).calls := by
  induction fs generalizing i with
  | nil => simp [uploadLoop]
  | cons f rest ih =>
      cases hres : o.uploadResult i with
      | some e => simp [uploadLoop, hres]
      | none => simp [uploadLoop, hres, ih]

theorem dedupConsec_range'_concat (a b : Nat) :
    dedupConsec (List.range' a b ++ [a + b]) = List.range' a b ++ [a + b] := by
  induction b generalizing a with
  | zero => simp [dedupConsec]
  | succ b' ih =>
      have hshift : a + (b' + 1) = (a + 1) + b' := by omega
      rw [List.range'_succ, List.cons_append, hshift]
      have ihr := ih (a + 1)
      cases b' with
      | zero =>
          simp only [List.range'] at ihr ⊢
          simp [dedupConsec, Nat.ne_of_lt (Nat.lt_succ_self a)]
      | succ b'' =>
          rw [List.range'_succ, List.cons_append] at ihr ⊢
          simp only [dedupConsec, if_neg (by omega : ¬ a = a + 1)]
          rw [ihr]

theorem dedupConsec_cons_ne (a b : Nat) (h : a ≠ b) (rest : List Nat) :
    dedupConsec (a :: b :: rest) = a :: dedupConsec (b :: rest) := by
  simp [dedupConsec, h]

theorem dedupConsec_cons_eq (a : Nat) (rest : List Nat) :
    dedupConsec (a :: a :: rest) = dedupConsec (a :: rest) := by
  simp [dedupConsec]

theorem dedupConsec_run (n : Nat) (hn : n ≠ 0) :
    dedupConsec (0 :: 1 :: (List.range' 1 n ++ [n + 1])) = List.range (n + 2) := by
  obtain ⟨m, rfl⟩ : ∃ m, n = m + 1 := ⟨n - 1, by omega⟩
  show dedupConsec (0 :: 1 :: (List.range' 1 (m + 1) ++ [m + 2])) = List.range (m + 3)
  have hsucc : List.range' 1 (m + 1) = 1 :: List.range' 2 m := by
    simpa using List.range'_succ 1 m 1
  have hconcat : List.range' 1 (m + 2) = List.range' 1 (m + 1) ++ [m + 2] := by
    have h := @List.range'_concat 1 1 (m + 1)
    have e : 1 + 1 * (m + 1) = m + 2 := by omega
    rw [e] at h
    exact h
  have hrange : List.range (m + 3) = 0 :: List.range' 1 (m + 2) := by
    rw [List.range_eq_range']
    simpa using List.range'_succ 0 (m + 2) 1
  rw [hsucc, List.cons_append, dedupConsec_cons_ne 0 1 (by omega), dedupConsec_cons_eq]
  have hone : (1 : Nat) :: (List.range' 2 m ++ [m + 2]) = List.range' 1 (m + 1) ++ [m + 2] := by
    rw [hsucc, List.cons_append]
  rw [hone]
  have hkey : dedupConsec (List.range' 1 (m + 1) ++ [m + 2]) =
      List.range' 1 (m + 1) ++ [m + 2] := by
    have := dedupConsec_range'_concat 1 (m + 1)
    have h2 : 1 + (m + 1) = m + 2 := by omega
    rwa [h2] at this
  rw [hkey, hrange, hconcat]

theorem loadExistingStores_existingStores (res : Except String (List RagStore)) (s : AppState) :
    (loadExistingStores res s).existingStores =
      match res with
      | Except.ok stores => stores
      | Except.error _ => s.existingStores := by
  cases res <;> simp [loadExistingStores, apply_ite]

theorem loadExistingStores_libraryError (res : Except String (List RagStore)) (s : AppState) :
    (loadExistingStores res s).libraryError =
      match res with
      | Except.ok _ => none
      | Except.error _ =>
          some "Failed to load your library. Please check your network or API key." := by
  cases res <;> simp [loadExistingStores, apply_ite]

theorem loadExistingStores_status (res : Except String (List RagStore)) (s : AppState) :
    (loadExistingStores res s).status =
      if s.status = AppStatus.Initializing then AppStatus.Welcome else s.status := by
  by_cases hs : s.status = AppStatus.Initializing <;>
    cases res <;> simp [loadExistingStores, apply_ite, hs]

theorem loadExistingStores_chatHistory (res : Except String (List RagStore)) (s : AppState) :
    (loadExistingStores res s).chatHistory = s.chatHistory := by
  cases res <;> simp [loadExistingStores, apply_ite]

theorem uploadCatch_files (e : String) (s : AppState) :
    (uploadCatch e s).files = s.files := by
  unfold uploadCatch handleError
  split <;> rfl

theorem uploadCatch_activeRagStoreName (e : String) (s : AppState) :
    (uploadCatch e s).activeRagStoreName = s.activeRagStoreName := by
  unfold uploadCatch handleError
  split <;> rfl

theorem uploadCatch_existingStores (e : String) (s : AppState) :
    (uploadCatch e s).existingStores = s.existingStores := by
  unfold uploadCatch handleError
  split <;> rfl

theorem uploadCatch_status (e : String) (s : AppState) :
    (uploadCatch e s).status = AppStatus.Welcome ∨ (uploadCatch e s).status = AppStatus.Error := by
  unfold uploadCatch handleError
  split
  · exact Or.inl rfl
  · exact Or.inr rfl

/-- Unfolding of a fully successful create-store run. -/
theorem handler_run_ok (oracle : UploadOracle) (fb nm : String) (s : AppState)
    (hkey : s.isApiKeySelected = true) (hne : s.files ≠ [])
    (hc : oracle.createResult = Except.ok nm)
    (herr : (uploadLoop oracle nm (s.files.length + 2) s.files.length s.files 0).err = none) :
    handleUploadAndStartChat oracle fb s =
      { state := { s with
            apiKeyError := none
            status := AppStatus.Welcome
            uploadProgress := none
            existingStores :=
              { name := nm, displayName := friendlyName fb s.files } :: s.existingStores
            files := [] }
        progressTrace :=
          (creatingProgress (s.files.length + 2) ::
           embeddingsProgress (s.files.length + 2) ::
           (uploadLoop oracle nm (s.files.length + 2) s.files.length s.files 0).trace) ++
          [registeredProgress s.files.length]
        calls := RemoteCall.createStore (friendlyName fb s.files) ::
          (uploadLoop oracle nm (s.files.length + 2) s.files.length s.files 0).calls
        threw := false } := by
  have hlen : ¬ s.files.length = 0 := by simpa [List.length_eq_zero] using hne
  simp only [handleUploadAndStartChat, hkey, Bool.not_true, Bool.false_eq_true, if_false,
    if_neg hlen, hc, herr]

/-- Unfolding of a create-store run whose upload loop throws. -/
theorem handler_run_upload_fail (oracle : UploadOracle) (fb nm e : String) (s : AppState)
    (hkey : s.isApiKeySelected = true) (hne : s.files ≠ [])
    (hc : oracle.createResult = Except.ok nm)
    (herr : (uploadLoop oracle nm (s.files.length + 2) s.files.length s.files 0).err = some e) :
    handleUploadAndStartChat oracle fb s =
      { state :=
          { uploadCatch e { s with
              apiKeyError := none
              status := AppStatus.Uploading
              uploadProgress := some (embeddingsProgress (s.files.length + 2)) } with
            uploadProgress := none }
        progressTrace :=
          creatingProgress (s.files.length + 2) ::
          embeddingsProgress (s.files.length + 2) ::
          (uploadLoop oracle nm (s.files.length + 2) s.files.length s.files 0).trace
        calls := RemoteCall.createStore (friendlyName fb s.files) ::
          (uploadLoop oracle nm (s.files.length + 2) s.files.length s.files 0).calls
        threw := true } := by
  have hlen : ¬ s.files.length = 0 := by simpa [List.length_eq_zero] using hne
  simp only [handleUploadAndStartChat, hkey, Bool.not_true, Bool.false_eq_true, if_false,
    if_neg hlen, hc, herr]

/-! The claims. -/

/-- C1: for every staging set of N files (N ≥ 1), a successful create-store
run produces exactly N+2 progress advancements — the distinct `current`
values attained strictly increase from 0 to N+1 — and the final update
carries a "Registered" message.  The first conjunct exposes the raw update
sequence: it is `0, 1, 1, 2, …, N, N+1` (the first loop iteration re-sets
`current := 1`, changing only the message and file name, so it advances
nothing); `dedupConsec` removes that one repetition. -/
theorem C1_create_progress_advancements (s : AppState) (oracle : UploadOracle)
    (fb nm : String) (hkey : s.isApiKeySelected = true) (hne : s.files ≠ [])
    (hc : oracle.createResult = Except.ok nm)
    (hup : ∀ j, oracle.uploadResult j = none) :
    ((handleUploadAndStartChat oracle fb s).progressTrace.map (fun p => p.current) =
        0 :: 1 :: (List.range' 1 s.files.length ++ [s.files.length + 1]))
    ∧ dedupConsec ((handleUploadAndStartChat oracle fb s).progressTrace.map (fun p => p.current)) =
        List.range (s.files.length + 2)
    ∧ (dedupConsec
        ((handleUploadAndStartChat oracle fb s).progressTrace.map (fun p => p.current))).length =
        s.files.length + 2
    ∧ (handleUploadAndStartChat oracle fb s).progressTrace.getLast? =
        some (registeredProgress s.files.length)
    ∧ (registeredProgress s.files.length).message.data.take 10 = "Registered".data := by
  have herr : (uploadLoop oracle nm (s.files.length + 2) s.files.length s.files 0).err = none :=
    uploadLoop_err_none oracle nm (s.files.length + 2) s.files.length s.files 0
      (fun j _ => hup (0 + j))
  have htr : (uploadLoop oracle nm (s.files.length + 2) s.files.length s.files 0).trace.map
      (fun p => p.current) = List.range' 1 s.files.length := by
    simpa using uploadLoop_trace_currents oracle nm (s.files.length + 2) s.files.length s.files 0
      (fun j _ => hup (0 + j))
  have hlen : s.files.length ≠ 0 := by simpa [List.length_eq_zero] using hne
  rw [handler_run_ok oracle fb nm s hkey hne hc herr]
  have hmap : ((creatingProgress (s.files.length + 2) ::
      embeddingsProgress (s.files.length + 2) ::
      (uploadLoop oracle nm (s.files.length + 2) s.files.length s.files 0).trace) ++
      [registeredProgress s.files.length]).map (fun p => p.current) =
      0 :: 1 :: (List.range' 1 s.files.length ++ [s.files.length + 1]) := by
    simp [creatingProgress, embeddingsProgress, registeredProgress, htr]
  refine ⟨hmap, ?_, ?_, ?_, ?_⟩
  · rw [hmap]
    exact dedupConsec_run s.files.length hlen
  · rw [hmap, dedupConsec_run s.files.length hlen]
    simp
  · exact List.getLast?_concat _
  · rfl

/-- C1 witness: the one-file scenario (`"manual.pdf"`, everything succeeds)
attains the distinct progress values 0,1,2 = `range 3` and ends with the
"Registered" record. -/
theorem C1_create_progress_advancements_witness :
    welcomeOneFile.isApiKeySelected = true ∧ welcomeOneFile.files ≠ [] ∧
    dedupConsec ((handleUploadAndStartChat okOracle "fb" welcomeOneFile).progressTrace.map
        (fun p => p.current)) = List.range 3 ∧
    (handleUploadAndStartChat okOracle "fb" welcomeOneFile).progressTrace.getLast? =
      some (registeredProgress 1) :=
  ⟨rfl, by decide,
    (C1_create_progress_advancements welcomeOneFile okOracle "fb" "store/42" rfl (by decide)
      rfl (fun j => rfl)).2.1,
    (C1_create_progress_advancements welcomeOneFile okOracle "fb" "store/42" rfl (by decide)
      rfl (fun j => rfl)).2.2.2.1⟩

/-- C2: when any single file's upload throws, the whole transition aborts:
the staging set is untouched, no store id becomes (or remains) active, the
progress record is cleared, the library cache is unchanged, and the handler
rethrows. -/
theorem C2_upload_failure_all_or_nothing (s : AppState) (oracle : UploadOracle)
    (fb nm e : String) (k : Nat)
    (hkey : s.isApiKeySelected = true) (hne : s.files ≠ [])
    (hactive : s.activeRagStoreName = none)
    (hc : oracle.createResult = Except.ok nm)
    (hk : k < s.files.length)
    (hbefore : ∀ j, j < k → oracle.uploadResult j = none)
    (hfail : oracle.uploadResult k = some e) :
    (handleUploadAndStartChat oracle fb s).state.files = s.files
    ∧ (handleUploadAndStartChat oracle fb s).state.activeRagStoreName = none
    ∧ (handleUploadAndStartChat oracle fb s).state.uploadProgress = none
    ∧ (handleUploadAndStartChat oracle fb s).state.existingStores = s.existingStores
    ∧ (handleUploadAndStartChat oracle fb s).threw = true := by
  have herr : (uploadLoop oracle nm (s.files.length + 2) s.files.length s.files 0).err = some e :=
    uploadLoop_err_first_fail oracle nm (s.files.length + 2) s.files.length s.files 0 k e hk
      (fun j hj => by simpa using hbefore j hj) (by simpa using hfail)
  rw [handler_run_upload_fail oracle fb nm e s hkey hne hc herr]
  refine ⟨?_, ?_, rfl, ?_, rfl⟩
  · simpa using uploadCatch_files e _
  · rw [show ({ uploadCatch e { s with
        apiKeyError := none
        status := AppStatus.Uploading
        uploadProgress := some (embeddingsProgress (s.files.length + 2)) } with
        uploadProgress := none } : AppState).activeRagStoreName =
      (uploadCatch e { s with
        apiKeyError := none
        status := AppStatus.Uploading
        uploadProgress := some (embeddingsProgress (s.files.length + 2)) }).activeRagStoreName
      from rfl, uploadCatch_activeRagStoreName]
    exact hactive
  · simpa using uploadCatch_existingStores e _

/-- C2 witness: two staged files, the second upload fails with a network
error; the staging set, active-store field and cache are unchanged and the
progress record is cleared. -/
theorem C2_upload_failure_all_or_nothing_witness :
    welcomeTwoFiles.files ≠ [] ∧ (1 : Nat) < welcomeTwoFiles.files.length ∧
    (handleUploadAndStartChat failSecondOracle "fb" welcomeTwoFiles).state.files =
      welcomeTwoFiles.files ∧
    (handleUploadAndStartChat failSecondOracle "fb" welcomeTwoFiles).state.activeRagStoreName =
      none ∧
    (handleUploadAndStartChat failSecondOracle "fb" welcomeTwoFiles).state.uploadProgress = none :=
  ⟨by decide, by decide,
    (C2_upload_failure_all_or_nothing welcomeTwoFiles failSecondOracle "fb" "store/42"
      "network error" 1 rfl (by decide) rfl rfl (by decide)
      (fun j hj => by interval_cases j; rfl) rfl).1,
    (C2_upload_failure_all_or_nothing welcomeTwoFiles failSecondOracle "fb" "store/42"
      "network error" 1 rfl (by decide) rfl rfl (by decide)
      (fun j hj => by interval_cases j; rfl) rfl).2.1,
    (C2_upload_failure_all_or_nothing welcomeTwoFiles failSecondOracle "fb" "store/42"
      "network error" 1 rfl (by decide) rfl rfl (by decide)
      (fun j hj => by interval_cases j; rfl) rfl).2.2.1⟩

/-- C3 counterexample: the claim asserts the confirmed delete performs the
optimistic cache removal (before the remote delete) and does not revert it on
remote failure, so after a failed delete the store would be absent from the
cache.  In the code the remote delete is awaited first: when it fails, the
whole post-state is the unchanged pre-state — the entry is still in the cache
(and the only effect is the alert). -/
theorem C3_delete_failure_counterexample :
    (handleDeleteStore "fileSearchStores/1" (Except.error "network error") (Except.ok [])
      welcomeWithStore).1 = welcomeWithStore
    ∧ { name := "fileSearchStores/1", displayName := "A" } ∈
        (handleDeleteStore "fileSearchStores/1" (Except.error "network error") (Except.ok [])
          welcomeWithStore).1.existingStores
    ∧ (handleDeleteStore "fileSearchStores/1" (Except.error "network error") (Except.ok [])
        welcomeWithStore).2 = true :=
  ⟨rfl, by decide, rfl⟩

/-- C3 amended: on confirmed delete the remote delete is attempted first; on
its failure the state is returned untouched (the entry never left the cache,
so there is nothing to revert) and the alert flag is raised; on its success
the entry is filtered out of the cache and a refresh is issued — so the cache
ends as the refreshed list when the refresh succeeds, and as the filtered
list when the refresh fails. -/
theorem C3_delete_store_behavior (storeName e : String)
    (rres : Except String (List RagStore)) (s : AppState) :
    handleDeleteStore storeName (Except.error e) rres s = (s, true)
    ∧ (∀ u stores,
        (handleDeleteStore storeName (Except.ok u) (Except.ok stores) s).1.existingStores
          = stores)
    ∧ (∀ u e2,
        (handleDeleteStore storeName (Except.ok u) (Except.error e2) s).1.existingStores
          = s.existingStores.filter (fun st => st.name != storeName))
    ∧ (∀ u, (handleDeleteStore storeName (Except.ok u) rres s).2 = false) := by
  refine ⟨rfl, ?_, ?_, fun u => rfl⟩
  · intro u stores
    simp [handleDeleteStore, loadExistingStores_existingStores]
  · intro u e2
    simp [handleDeleteStore, loadExistingStores_existingStores]

/-- C4 counterexample: the claim asserts that an empty staging set aborts the
transition with a field-level error.  In the code the empty-staging guard is
a bare `return`: the state is entirely unchanged — in particular no
`apiKeyError` and no `error` is recorded — no remote call is made, and the
handler does not even throw. -/
theorem C4_empty_staging_counterexample :
    (handleUploadAndStartChat okOracle "fb" emptyStagingState).state = emptyStagingState
    ∧ (handleUploadAndStartChat okOracle "fb" emptyStagingState).state.apiKeyError = none
    ∧ (handleUploadAndStartChat okOracle "fb" emptyStagingState).state.error = none
    ∧ (handleUploadAndStartChat okOracle "fb" emptyStagingState).calls = []
    ∧ (handleUploadAndStartChat okOracle "fb" emptyStagingState).threw = false :=
  ⟨rfl, rfl, rfl, rfl, rfl⟩

/-- C4 amended: a missing credential aborts with the field-level
`apiKeyError`, throws, and changes nothing else, with no remote call; an
empty staging set (credential selected) aborts silently — no state change at
all, no error of any kind, no remote call, no throw. -/
theorem C4_precondition_behavior (s : AppState) (oracle : UploadOracle) (fb : String) :
    (s.isApiKeySelected = false →
      (handleUploadAndStartChat oracle fb s).state =
        { s with apiKeyError := some "Please select your Gemini API Key first." }
      ∧ (handleUploadAndStartChat oracle fb s).calls = []
      ∧ (handleUploadAndStartChat oracle fb s).threw = true)
    ∧ (s.isApiKeySelected = true → s.files = [] →
      (handleUploadAndStartChat oracle fb s).state = s
      ∧ (handleUploadAndStartChat oracle fb s).calls = []
      ∧ (handleUploadAndStartChat oracle fb s).threw = false) := by
  constructor
  · intro h
    refine ⟨?_, ?_, ?_⟩ <;> simp [handleUploadAndStartChat, h]
  · intro h hf
    refine ⟨?_, ?_, ?_⟩ <;> simp [handleUploadAndStartChat, h, hf]

/-- C4 witness: both amended branches instantiated — no key with staged
files, and a key with an empty staging set. -/
theorem C4_precondition_behavior_witness :
    noKeyState.isApiKeySelected = false
    ∧ emptyStagingState.isApiKeySelected = true
    ∧ emptyStagingState.files = []
    ∧ (handleUploadAndStartChat okOracle "fb" noKeyState).threw = true
    ∧ (handleUploadAndStartChat okOracle "fb" noKeyState).calls = []
    ∧ (handleUploadAndStartChat okOracle "fb" emptyStagingState).state = emptyStagingState :=
  ⟨rfl, rfl, rfl,
    ((C4_precondition_behavior noKeyState okOracle "fb").1 rfl).2.2,
    ((C4_precondition_behavior noKeyState okOracle "fb").1 rfl).2.1,
    ((C4_precondition_behavior emptyStagingState okOracle "fb").2 rfl rfl).1⟩

/-- C5: with an active store, a successful send appends exactly the user and
model messages in order and keeps the status; a failing send appends exactly
the user and apology messages and routes to the `Error` status with a
recorded fatal error; the in-flight flag ends cleared in both cases. -/
theorem C5_send_message_appends_two (s : AppState) (msg nm : String)
    (hactive : s.activeRagStoreName = some nm) :
    (∀ r : QueryResult,
      (handleSendMessage msg (Except.ok r) s).chatHistory
          = s.chatHistory ++ [userMessage msg, modelMessage r]
      ∧ (handleSendMessage msg (Except.ok r) s).isQueryLoading = false
      ∧ (handleSendMessage msg (Except.ok r) s).status = s.status)
    ∧ (∀ e : String,
      (handleSendMessage msg (Except.error e) s).chatHistory
          = s.chatHistory ++ [userMessage msg, apologyMessage]
      ∧ (handleSendMessage msg (Except.error e) s).isQueryLoading = false
      ∧ (handleSendMessage msg (Except.error e) s).status = AppStatus.Error
      ∧ (handleSendMessage msg (Except.error e) s).error
          = some ("Failed to get response" ++ (": " ++ e))) := by
  constructor
  · intro r
    refine ⟨?_, ?_, ?_⟩ <;> simp [handleSendMessage, hactive]
  · intro e
    refine ⟨?_, ?_, ?_, ?_⟩ <;> simp [handleSendMessage, hactive, handleError]

/-- C5 witness: a failing send from the chatting scenario appends exactly the
user and apology messages and lands in `Error` with the flag cleared. -/
theorem C5_send_message_appends_two_witness :
    chattingState.activeRagStoreName = some "fileSearchStores/7"
    ∧ (handleSendMessage "hi" (Except.error "network error") chattingState).chatHistory
        = [userMessage "hi", apologyMessage]
    ∧ (handleSendMessage "hi" (Except.error "network error") chattingState).isQueryLoading
        = false
    ∧ (handleSendMessage "hi" (Except.ok { text := "ok", groundingChunks := [] })
        chattingState).chatHistory
        = [userMessage "hi", modelMessage { text := "ok", groundingChunks := [] }] :=
  ⟨rfl,
    ((C5_send_message_appends_two chattingState "hi" "fileSearchStores/7" rfl).2
      "network error").1,
    ((C5_send_message_appends_two chattingState "hi" "fileSearchStores/7" rfl).2
      "network error").2.1,
    ((C5_send_message_appends_two chattingState "hi" "fileSearchStores/7" rfl).1
      { text := "ok", groundingChunks := [] }).1⟩

/-- C6: on a fully successful create-store run the final status is `Welcome`,
the new store — remote-returned id, derived display name — sits at position 0
of the cache, the staging set is empty, and no list-stores refresh was issued
anywhere in the run. -/
theorem C6_create_success_optimistic (s : AppState) (oracle : UploadOracle)
    (fb nm : String) (hkey : s.isApiKeySelected = true) (hne : s.files ≠ [])
    (hc : oracle.createResult = Except.ok nm)
    (hup : ∀ j, oracle.uploadResult j = none) :
    (handleUploadAndStartChat oracle fb s).state.status = AppStatus.Welcome
    ∧ (handleUploadAndStartChat oracle fb s).state.existingStores
        = { name := nm, displayName := friendlyName fb s.files } :: s.existingStores
    ∧ (handleUploadAndStartChat oracle fb s).state.files = []
    ∧ RemoteCall.listStores ∉ (handleUploadAndStartChat oracle fb s).calls
    ∧ (handleUploadAndStartChat oracle fb s).threw = false := by
  have herr : (uploadLoop oracle nm (s.files.length + 2) s.files.length s.files 0).err = none :=
    uploadLoop_err_none oracle nm (s.files.length + 2) s.files.length s.files 0
      (fun j _ => hup (0 + j))
  rw [handler_run_ok oracle fb nm s hkey hne hc herr]
  refine ⟨rfl, rfl, rfl, ?_, rfl⟩
  simpa using uploadLoop_no_listStores oracle nm (s.files.length + 2) s.files.length s.files 0

/-- C6 witness: the spec's end-to-end scenario — one staged file
`"manual.pdf"`, remote id `"store/42"` — ends in `Welcome` with exactly
`{name := "store/42", displayName := "manual.pdf"}` as the cache and an empty
staging set. -/
theorem C6_create_success_optimistic_witness :
    welcomeOneFile.files ≠ []
    ∧ (handleUploadAndStartChat okOracle "fb" welcomeOneFile).state.status = AppStatus.Welcome
    ∧ (handleUploadAndStartChat okOracle "fb" welcomeOneFile).state.existingStores
        = [{ name := "store/42", displayName := "manual.pdf" }]
    ∧ (handleUploadAndStartChat okOracle "fb" welcomeOneFile).state.files = []
    ∧ RemoteCall.listStores ∉ (handleUploadAndStartChat okOracle "fb" welcomeOneFile).calls :=
  ⟨by decide,
    (C6_create_success_optimistic welcomeOneFile okOracle "fb" "store/42" rfl (by decide) rfl
      (fun j => rfl)).1,
    (C6_create_success_optimistic welcomeOneFile okOracle "fb" "store/42" rfl (by decide) rfl
      (fun j => rfl)).2.1,
    (C6_create_success_optimistic welcomeOneFile okOracle "fb" "store/42" rfl (by decide) rfl
      (fun j => rfl)).2.2.1,
    (C6_create_success_optimistic welcomeOneFile okOracle "fb" "store/42" rfl (by decide) rfl
      (fun j => rfl)).2.2.2.1⟩

/-- C7 counterexample: the claim asserts the chat sequence is fully reset on
every transition out of `Chatting`.  A failing send from a `Chatting` state
transitions to `Error` (via `handleError`) with the transcript NOT reset: it
still holds the just-appended user and apology messages. -/
theorem C7_error_transition_counterexample :
    chattingState.status = AppStatus.Chatting
    ∧ (handleSendMessage "hi" (Except.error "network error") chattingState).status
        = AppStatus.Error
    ∧ (handleSendMessage "hi" (Except.error "network error") chattingState).chatHistory
        = [userMessage "hi", apologyMessage]
    ∧ (handleSendMessage "hi" (Except.error "network error") chattingState).chatHistory ≠ [] :=
  ⟨rfl, rfl, rfl, by decide⟩

/-- C7 amended: while `Chatting` the transcript only grows (a send appends to
it); the end-chat transition (`Chatting → Welcome`) does fully reset it, but
the `Chatting → Error` transition taken by a failing send keeps the
accumulated transcript — it is only cleared later, when a store is selected
again. -/
theorem C7_chat_history_reset (s : AppState) (rres : Except String (List RagStore))
    (msg e nm : String) (_hchat : s.status = AppStatus.Chatting)
    (hactive : s.activeRagStoreName = some nm) :
    (handleEndChat rres s).chatHistory = []
    ∧ (handleEndChat rres s).status = AppStatus.Welcome
    ∧ (handleSendMessage msg (Except.error e) s).status = AppStatus.Error
    ∧ (handleSendMessage msg (Except.error e) s).chatHistory
        = s.chatHistory ++ [userMessage msg, apologyMessage] := by
  refine ⟨?_, ?_, ?_, ?_⟩
  · simp [handleEndChat, loadExistingStores_chatHistory]
  · simp [handleEndChat, loadExistingStores_status]
  · simp [handleSendMessage, hactive, handleError]
  · simp [handleSendMessage, hactive, handleError]

/-- C7 witness: the chatting scenario — ending the chat resets the
transcript and returns to `Welcome`; the failing send extends it instead. -/
theorem C7_chat_history_reset_witness :
    chattingState.status = AppStatus.Chatting
    ∧ chattingState.activeRagStoreName = some "fileSearchStores/7"
    ∧ (handleEndChat (Except.ok []) chattingState).chatHistory = []
    ∧ (handleEndChat (Except.ok []) chattingState).status = AppStatus.Welcome :=
  ⟨rfl, rfl,
    (C7_chat_history_reset chattingState (Except.ok []) "hi" "network error"
      "fileSearchStores/7" rfl rfl).1,
    (C7_chat_history_reset chattingState (Except.ok []) "hi" "network error"
      "fileSearchStores/7" rfl rfl).2.1⟩

/-- C8: a successful refresh replaces the cache wholesale and leaves no
library error; a failing refresh keeps the previous cache and records the
library error; and no refresh outcome ever moves the machine to `Error` (it
ends in `Error` only if it already was there). -/
theorem C8_refresh_replace_or_retain (s : AppState) :
    (∀ stores, (loadExistingStores (Except.ok stores) s).existingStores = stores
      ∧ (loadExistingStores (Except.ok stores) s).libraryError = none)
    ∧ (∀ e, (loadExistingStores (Except.error e) s).existingStores = s.existingStores
      ∧ (loadExistingStores (Except.error e) s).libraryError
          = some "Failed to load your library. Please check your network or API key.")
    ∧ (∀ res, (loadExistingStores res s).status = AppStatus.Error →
        s.status = AppStatus.Error) := by
  refine ⟨?_, ?_, ?_⟩
  · intro stores
    exact ⟨by simp [loadExistingStores_existingStores],
      by simp [loadExistingStores_libraryError]⟩
  · intro e
    exact ⟨by simp [loadExistingStores_existingStores],
      by simp [loadExistingStores_libraryError]⟩
  · intro res h
    rw [loadExistingStores_status] at h
    by_cases hs : s.status = AppStatus.Initializing
    · simp [hs] at h
    · simpa [hs] using h

/-- C8 witness: refreshing from the store-holding state — success replaces
the cache with the fetched list, failure retains it; and a state already in
`Error` is the only way a refresh outcome reports `Error`. -/
theorem C8_refresh_replace_or_retain_witness :
    (loadExistingStores (Except.ok []) welcomeWithStore).existingStores = []
    ∧ (loadExistingStores (Except.error "network error") welcomeWithStore).existingStores
        = [{ name := "fileSearchStores/1", displayName := "A" }]
    ∧ (loadExistingStores (Except.error "network error") welcomeWithStore).libraryError ≠ none
    ∧ ({ initialState with status := AppStatus.Error } : AppState).status = AppStatus.Error :=
  ⟨((C8_refresh_replace_or_retain welcomeWithStore).1 []).1,
    ((C8_refresh_replace_or_retain welcomeWithStore).2.1 "network error").1,
    by
      rw [((C8_refresh_replace_or_retain welcomeWithStore).2.1 "network error").2]
      decide,
    (C8_refresh_replace_or_retain { initialState with status := AppStatus.Error }).2.2
      (Except.ok []) rfl⟩

/-- C9: when the select-existing transition fails after recording the
selection, the machine enters `Error` with the active store name (and
document name) still set to the selected store, and the `Error → Welcome`
recovery keeps that stale selection. -/
theorem C9_select_failure_keeps_selection (s : AppState) (store : RagStore) (e : String) :
    (handleSelectExistingStore store (Except.error e) s).status = AppStatus.Error
    ∧ (handleSelectExistingStore store (Except.error e) s).activeRagStoreName = some store.name
    ∧ (handleSelectExistingStore store (Except.error e) s).documentName = store.displayName
    ∧ (clearError (handleSelectExistingStore store (Except.error e) s)).status
        = AppStatus.Welcome
    ∧ (clearError (handleSelectExistingStore store (Except.error e) s)).activeRagStoreName
        = some store.name := by
  refine ⟨rfl, rfl, rfl, rfl, rfl⟩

/-- C10: every document produced by the listing adapter has an empty
`customMetadata` — whatever metadata the raw remote entry carried — and an
entry lacking both display-name spellings is titled "Untitled Document". -/
theorem C10_list_documents_shape (files : List RawFile) :
    (∀ d, d ∈ listDocuments files → d.customMetadata = [])
    ∧ (∀ f, f ∈ files → f.displayName = none → f.display_name = none →
        (toDocument f).displayName = "Untitled Document")
    ∧ listDocuments files = files.map toDocument := by
  refine ⟨?_, ?_, rfl⟩
  · intro d hd
    rw [listDocuments, List.mem_map] at hd
    obtain ⟨f, _, rfl⟩ := hd
    rfl
  · intro f _ h1 h2
    simp [toDocument, jsOrString, h1, h2]

/-- C10 witness: a metadata-carrying raw entry with no display-name
spellings maps to an "Untitled Document" with empty `customMetadata`. -/
theorem C10_list_documents_shape_witness :
    rawFileUntitled ∈ [rawFileUntitled]
    ∧ rawFileUntitled.customMetadata ≠ []
    ∧ (toDocument rawFileUntitled).displayName = "Untitled Document"
    ∧ (toDocument rawFileUntitled).customMetadata = [] :=
  ⟨by decide, by decide,
    (C10_list_documents_shape [rawFileUntitled]).2.1 rawFileUntitled (by decide) rfl rfl,
    (C10_list_documents_shape [rawFileUntitled]).1 (toDocument rawFileUntitled)
      (by simp [listDocuments])⟩

end GeminiRag
